import Mathlib

/-!
Shallow embedding of the kumo data-access and retention layer.

The embedding follows the JavaScript sources:
* `utils/QueryBuilder.js` — fluent SQL assembly (`QueryBuilder` below);
* `utils/Validator.js` — pagination and search-parameter validation;
* `services/DatabaseService.js` — reads and transactional deletes over the
  jobs / tasks / task_deps / streams tables (modelled as an explicit store,
  with a failure schedule standing for statement-level store errors);
* `services/AutoClearService.js` — the retention scheduler (timers modelled
  as an explicit pending-timer table, sweeps as pure state transformers).
-/

/-! ## QueryBuilder (utils/QueryBuilder.js) -/

/-- A positional query parameter: the JS code pushes either strings or
numbers onto `this.params`. -/
inductive Param where
  | str (s : String)
  | int (n : Int)
deriving DecidableEq, Repr

/-- One entry of `this.joins`. -/
structure JoinClause where
  table : String
  condition : String
  type : String
deriving DecidableEq, Repr

/-- One entry of `this.whereConditions`. -/
structure WhereCond where
  condition : String
  value : Option Param
deriving DecidableEq, Repr

/-- One entry of `this.orderByClauses`. -/
structure OrderClause where
  field : String
  direction : String
deriving DecidableEq, Repr

/-- The mutable state of a `QueryBuilder` instance. -/
structure QueryBuilder where
  selectFields : Option (List String)
  fromTable : String
  joins : List JoinClause
  whereConditions : List WhereCond
  groupByFields : List String
  orderByClauses : List OrderClause
  limitValue : Option Int
  offsetValue : Option Int
  params : List Param
  paramIndex : Nat
deriving DecidableEq, Repr

namespace QueryBuilder

/-- `new QueryBuilder()`. -/
def empty : QueryBuilder :=
  { selectFields := none, fromTable := "", joins := [], whereConditions := []
    groupByFields := [], orderByClauses := [], limitValue := none
    offsetValue := none, params := [], paramIndex := 1 }

/-- JS `String.prototype.replace` with a one-character string pattern:
replace the FIRST occurrence of `'?'` only, leave the rest verbatim. -/
def replaceFirstQ : List Char → List Char → List Char
  | [], _ => []
  | c :: rest, repl => if c = '?' then repl ++ rest else c :: replaceFirstQ rest repl

/-- `condition.replace('?', marker)` on strings. -/
def replaceQ (s marker : String) : String :=
  ⟨replaceFirstQ s.data marker.data⟩

/-- `select(fields)` (array form). -/
def select (qb : QueryBuilder) (fields : List String) : QueryBuilder :=
  { qb with selectFields := some fields }

/-- `from(table)`. -/
def «from» (qb : QueryBuilder) (table : String) : QueryBuilder :=
  { qb with fromTable := table }

/-- `join(table, condition, type = 'LEFT')`. -/
def join (qb : QueryBuilder) (table condition : String) (type : String := "LEFT") :
    QueryBuilder :=
  { qb with joins := qb.joins ++ [{ table := table, condition := condition, type := type }] }

/-- `where(condition, value = null)`: with a non-null value, the first `'?'`
of the template becomes `$<paramIndex>`, the value is pushed, and the index
advances; with null the condition is stored verbatim. -/
def «where» (qb : QueryBuilder) (condition : String) (value : Option Param := none) :
    QueryBuilder :=
  match value with
  | some v =>
      { qb with
        whereConditions := qb.whereConditions ++
          [{ condition := replaceQ condition ("$" ++ toString qb.paramIndex), value := some v }]
        params := qb.params ++ [v]
        paramIndex := qb.paramIndex + 1 }
  | none =>
      { qb with whereConditions := qb.whereConditions ++ [{ condition := condition, value := none }] }

/-- `groupBy(fields)` (array form). -/
def groupBy (qb : QueryBuilder) (fields : List String) : QueryBuilder :=
  { qb with groupByFields := fields }

/-- `orderBy(field, direction = 'ASC')`. -/
def orderBy (qb : QueryBuilder) (field : String) (direction : String := "ASC") :
    QueryBuilder :=
  { qb with orderByClauses := qb.orderByClauses ++ [{ field := field, direction := direction }] }

/-- `limit(value)`. -/
def limit (qb : QueryBuilder) (value : Int) : QueryBuilder :=
  { qb with limitValue := some value }

/-- `offset(value)`. -/
def offset (qb : QueryBuilder) (value : Int) : QueryBuilder :=
  { qb with offsetValue := some value }

/-- The single failure mode of `build()`. -/
inductive BuildError where
  | missingClause
deriving DecidableEq, Repr

/-- `build()`: assemble the SQL text and the final parameter list.  The
LIMIT and OFFSET clauses each consume a fresh positional marker and push
their value after all where-values, in that order. -/
def build (qb : QueryBuilder) : Except BuildError (String × List Param) :=
  match qb.selectFields with
  | none => .error .missingClause
  | some fields =>
      let q0 := "SELECT " ++ String.intercalate ", " fields ++ " FROM " ++ qb.fromTable
      let q1 := qb.joins.foldl
        (fun q j => q ++ " " ++ j.type ++ " JOIN " ++ j.table ++ " ON " ++ j.condition) q0
      let q2 :=
        if qb.whereConditions.length > 0 then
          q1 ++ " WHERE " ++
            String.intercalate " AND " (qb.whereConditions.map (fun w => w.condition))
        else q1
      let q3 :=
        if qb.groupByFields.length > 0 then
          q2 ++ " GROUP BY " ++ String.intercalate ", " qb.groupByFields
        else q2
      let q4 :=
        if qb.orderByClauses.length > 0 then
          q3 ++ " ORDER BY " ++
            String.intercalate ", " (qb.orderByClauses.map (fun o => o.field ++ " " ++ o.direction))
        else q3
      let step5 : String × List Param × Nat :=
        match qb.limitValue with
        | some lv => (q4 ++ " LIMIT $" ++ toString qb.paramIndex, qb.params ++ [Param.int lv],
            qb.paramIndex + 1)
        | none => (q4, qb.params, qb.paramIndex)
      match qb.offsetValue with
      | some ov => .ok (step5.1 ++ " OFFSET $" ++ toString step5.2.2, step5.2.1 ++ [Param.int ov])
      | none => .ok (step5.1, step5.2.1)

end QueryBuilder

/-! ### Call sequences on a builder -/

/-- One fluent call on a `QueryBuilder`. -/
inductive BuilderCall where
  | select (fields : List String)
  | fromT (table : String)
  | join (table condition type : String)
  | whereVal (condition : String) (value : Option Param)
  | groupBy (fields : List String)
  | orderBy (field direction : String)
  | limit (value : Int)
  | offset (value : Int)
deriving DecidableEq, Repr

/-- Apply one fluent call. -/
def applyCall (qb : QueryBuilder) : BuilderCall → QueryBuilder
  | .select f => qb.select f
  | .fromT t => qb.«from» t
  | .join t c ty => qb.join t c ty
  | .whereVal c v => qb.«where» c v
  | .groupBy f => qb.groupBy f
  | .orderBy f d => qb.orderBy f d
  | .limit v => qb.limit v
  | .offset v => qb.offset v

/-- Run a call sequence on a fresh builder. -/
def applyCalls (calls : List BuilderCall) : QueryBuilder :=
  calls.foldl applyCall QueryBuilder.empty

/-! ## Validator (utils/Validator.js) -/

/-- The outcome of JS `parseInt` applied to a request value: `missing`
stands for an absent value or one that does not parse (`NaN`), `num n`
for a successful parse. -/
inductive JsInput where
  | missing
  | num (n : Int)
deriving DecidableEq, Repr

/-- `parseInt(x) || dflt`: `NaN` and `0` are falsy and fall back to the
default, any other integer is kept. -/
def parseIntOr (i : JsInput) (dflt : Int) : Int :=
  match i with
  | .missing => dflt
  | .num n => if n = 0 then dflt else n

/-- The failure modes of `Validator.validatePagination`. -/
inductive PagError where
  | limitTooLarge
  | limitTooSmall
  | offsetNegative
deriving DecidableEq, Repr

/-- `Validator.validatePagination(limit, offset)`: default the parses to
50 and 0, then reject a limit above 100 or below 1 and a negative
offset. -/
def validatePagination (limit offset : JsInput) : Except PagError (Int × Int) :=
  let parsedLimit := parseIntOr limit 50
  let parsedOffset := parseIntOr offset 0
  if parsedLimit > 100 then .error .limitTooLarge
  else if parsedLimit < 1 then .error .limitTooSmall
  else if parsedOffset < 0 then .error .offsetNegative
  else .ok (parsedLimit, parsedOffset)

/-- The raw search parameters of a listing request.  `substrFlag` models
the JS query field selecting substring matching (the string "true" or
"false"). -/
structure SearchParams where
  jobId : Option String
  state : Option String
  user_id : Option String
  substrFlag : Option String
deriving DecidableEq, Repr

/-- JS truthiness of an optional string: absent and empty are falsy. -/
def isTruthy : Option String → Bool
  | none => false
  | some s => !s.isEmpty

/-- `Validator.validateSearchParams(params)`: keep a truthy jobId and
user_id, keep the state only when it is one of the four valid states,
keep the substring flag only when it is literally "true" or "false". -/
def validateSearchParams (p : SearchParams) : SearchParams :=
  { jobId := if isTruthy p.jobId then p.jobId else none
    state :=
      match p.state with
      | some s => if ["running", "done", "failed", "pending"].contains s then some s else none
      | none => none
    user_id := if isTruthy p.user_id then p.user_id else none
    substrFlag :=
      if p.substrFlag = some "true" ∨ p.substrFlag = some "false" then p.substrFlag else none }

/-! ## The relational store (jobs, tasks, task_deps, streams)

The store model and the service operations live in the `Kumo` namespace
(`Task` and `Stream` would otherwise collide with library names). -/

namespace Kumo

/-- One row of the `jobs` table. -/
structure Job where
  id : Nat
  state : String
  error : Option String
  user_id : String
  reported : Bool
deriving DecidableEq, Repr

/-- One row of the `tasks` table (the columns the claims depend on). -/
structure Task where
  task_id : String
  job_id : Nat
  state : String
  created_at : Nat
deriving DecidableEq, Repr

/-- One row of the optional `task_deps` table: a precedence edge scoped
to a job. -/
structure TaskDep where
  job_id : Nat
  pre_task_id : String
  post_task_id : String
deriving DecidableEq, Repr

/-- One row of the `streams` table. -/
structure Stream where
  id : Nat
  job_id : Nat
  created_at : Nat
deriving DecidableEq, Repr

/-- The relational store the service operates on. -/
structure Store where
  jobs : List Job
  tasks : List Task
  deps : List TaskDep
  streams : List Stream
deriving DecidableEq, Repr

/-! ## DatabaseService reads (services/DatabaseService.js) -/

/-- Insert into a list already sorted by `key` descending. -/
def insertDescBy {α : Type} (key : α → Nat) (x : α) : List α → List α
  | [] => [x]
  | y :: ys => if key y ≤ key x then x :: y :: ys else y :: insertDescBy key x ys

/-- Sort by `key` descending — `ORDER BY key DESC`. -/
def sortDescBy {α : Type} (key : α → Nat) : List α → List α
  | [] => []
  | x :: xs => insertDescBy key x (sortDescBy key xs)

/-- Does `needle` occur at the head of `hay`? -/
def charsStartWith : List Char → List Char → Bool
  | _, [] => true
  | [], _ :: _ => false
  | c :: cs, d :: ds => c = d && charsStartWith cs ds

/-- Does `needle` occur anywhere in `hay`? -/
def charsContain (hay needle : List Char) : Bool :=
  match hay with
  | [] => needle.isEmpty
  | _ :: rest => charsStartWith hay needle || charsContain rest needle

/-- SQL `text ILIKE '%pat%'`: case-insensitive containment. -/
def ilikeContains (text pat : String) : Bool :=
  charsContain (text.data.map Char.toLower) (pat.data.map Char.toLower)

/-- The WHERE conditions `getJobsWithStats` adds for validated search
parameters: exact or substring job-id match, exact state, exact owner. -/
def matchesSearch (p : SearchParams) (j : Job) : Bool :=
  (match p.jobId with
   | some s =>
       if p.substrFlag = some "true" then ilikeContains (toString j.id) s
       else toString j.id = s
   | none => true) &&
  (match p.state with
   | some s => j.state = s
   | none => true) &&
  (match p.user_id with
   | some u => j.user_id = u
   | none => true)

/-- One aggregated row of the `getJobsWithStats` LEFT JOIN + GROUP BY. -/
structure JobStats where
  id : Nat
  state : String
  error : Option String
  user_id : String
  reported : Bool
  task_count : Nat
  completed_tasks : Nat
  running_tasks : Nat
  pending_tasks : Nat
  failed_tasks : Nat
deriving DecidableEq, Repr

/-- The per-job aggregation: count this job's tasks, total and by state
(`COUNT` over a LEFT JOIN yields 0 for a job with no tasks). -/
def jobStatsOf (store : Store) (j : Job) : JobStats :=
  let ts := store.tasks.filter (fun t => t.job_id = j.id)
  { id := j.id, state := j.state, error := j.error, user_id := j.user_id, reported := j.reported
    task_count := ts.length
    completed_tasks := (ts.filter (fun t => t.state = "done")).length
    running_tasks := (ts.filter (fun t => t.state = "running")).length
    pending_tasks := (ts.filter (fun t => t.state = "pending")).length
    failed_tasks := (ts.filter (fun t => t.state = "failed")).length }

/-- The pagination echo every listing result carries. -/
structure PageInfo where
  limit : Int
  offset : Int
  count : Nat
deriving DecidableEq, Repr

/-- Result shape of `getJobsWithStats`. -/
structure JobsResult where
  jobs : List JobStats
  pagination : PageInfo
  search : SearchParams
deriving DecidableEq, Repr

/-- `DatabaseService.getJobsWithStats(searchParams, pagination)`: validate
pagination and search parameters, aggregate per job, filter, order by id
descending, then apply OFFSET and LIMIT. -/
def getJobsWithStats (store : Store) (sp : SearchParams) (plimit poffset : JsInput) :
    Except PagError JobsResult :=
  match validatePagination plimit poffset with
  | .error e => .error e
  | .ok (limit, offset) =>
      let valid := validateSearchParams sp
      let rows := ((sortDescBy (fun j => j.id) store.jobs).filter
        (matchesSearch valid)).map (jobStatsOf store)
      let page := (rows.drop offset.toNat).take limit.toNat
      .ok { jobs := page
            pagination := { limit := limit, offset := offset, count := page.length }
            search := valid }

/-- Result shape of `getStreams`. -/
structure StreamsResult where
  streams : List Stream
  pagination : PageInfo
deriving DecidableEq, Repr

/-- `DatabaseService.getStreams(pagination)`: validate pagination, order by
creation time descending, apply OFFSET and LIMIT. -/
def getStreams (store : Store) (plimit poffset : JsInput) : Except PagError StreamsResult :=
  match validatePagination plimit poffset with
  | .error e => .error e
  | .ok (limit, offset) =>
      let page := ((sortDescBy (fun s => s.created_at) store.streams).drop offset.toNat).take
        limit.toNat
      .ok { streams := page
            pagination := { limit := limit, offset := offset, count := page.length } }

/-- Result shape of `getJobDependencies`. -/
structure DepsResult where
  dependencies : List (String × String)
  count : Nat
deriving DecidableEq, Repr

/-- `DatabaseService.getJobDependencies(jobId)`: a single SELECT against
`task_deps`, with no catch around it — when the table is unavailable in
the deployment (`depsAvailable = false`) the store error propagates. -/
def getJobDependencies (depsAvailable : Bool) (store : Store) (jobId : Nat) :
    Except String DepsResult :=
  if depsAvailable then
    let rows := (store.deps.filter (fun d => d.job_id = jobId)).map
      (fun d => (d.pre_task_id, d.post_task_id))
    .ok { dependencies := rows, count := rows.length }
  else
    .error "relation task_deps does not exist"

/-! ## DatabaseService transactional deletes -/

/-- Which statements of a delete transaction the store makes fail; a
failing statement performs no mutation and raises. -/
structure FailSpec where
  failDepsDelete : Bool
  failTasksDelete : Bool
  failJobsDelete : Bool
deriving DecidableEq, Repr

/-- Errors a delete can surface. -/
inductive DeleteError where
  | notFound (jobId : Nat)
  | storeError
deriving DecidableEq, Repr

/-- The statements `deleteJob` issues on its dedicated connection, in
issue order. -/
inductive Stmt where
  | beginTx
  | checkJob
  | delDeps
  | delTasks
  | delJob
  | commitTx
  | rollbackTx
deriving DecidableEq, Repr

/-- Outcome of a delete transaction: the returned or thrown value, the
store OTHER READERS observe afterwards (the transaction's effects only if
it committed), and the statement trace. -/
structure TxOutcome where
  result : Except DeleteError Nat
  store : Store
  trace : List Stmt
deriving Repr

/-- `DatabaseService.deleteJob(jobId)`: BEGIN; check existence (throw and
roll back when absent); DELETE the job's task_deps rows, SWALLOWING any
failure of that one statement; DELETE its tasks rows; DELETE the jobs row;
COMMIT.  A failure of the tasks or jobs DELETE propagates to the catch,
which rolls the transaction back and rethrows. -/
def deleteJob (fs : FailSpec) (store : Store) (jobId : Nat) : TxOutcome :=
  if (store.jobs.filter (fun j => j.id = jobId)).isEmpty then
    { result := .error (.notFound jobId), store := store
      trace := [.beginTx, .checkJob, .rollbackTx] }
  else
    let afterDeps :=
      if fs.failDepsDelete then store
      else { store with deps := store.deps.filter (fun d => d.job_id ≠ jobId) }
    if fs.failTasksDelete then
      { result := .error .storeError, store := store
        trace := [.beginTx, .checkJob, .delDeps, .delTasks, .rollbackTx] }
    else
      let afterTasks :=
        { afterDeps with tasks := afterDeps.tasks.filter (fun t => t.job_id ≠ jobId) }
      if fs.failJobsDelete then
        { result := .error .storeError, store := store
          trace := [.beginTx, .checkJob, .delDeps, .delTasks, .delJob, .rollbackTx] }
      else
        { result := .ok jobId
          store := { afterTasks with jobs := afterTasks.jobs.filter (fun j => j.id ≠ jobId) }
          trace := [.beginTx, .checkJob, .delDeps, .delTasks, .delJob, .commitTx] }

/-- Result shape of the bulk clears: the zero-match branch returns no
`deletedJobIds` field at all, modelled as `none`. -/
structure ClearResult where
  deletedJobsCount : Nat
  deletedJobIds : Option (List Nat)
  message : String
deriving DecidableEq, Repr

/-- The zero-match report message of the bulk clears. -/
def clearNoneMessage (label : String) : String :=
  "No " ++ label ++ " jobs found to delete"

/-- The success report message of the bulk clears. -/
def clearOkMessage (label : String) (n : Nat) : String :=
  "Successfully deleted " ++ toString n ++ " " ++ label ++ " job(s)"

/-- Common body of `clearCompletedJobs` / `clearFailedJobs`: count the
jobs in state `st`, commit immediately with a zero result when none;
otherwise capture their ids, delete their task_deps rows, their tasks
rows, then the jobs themselves, and commit.  `fail = true` models a store
error inside the transaction: it is rolled back and the error rethrown. -/
def clearJobsByState (fail : Bool) (label : String) (st : String) (store : Store) :
    Except String ClearResult × Store :=
  if fail then (.error ("Failed to clear " ++ label ++ " jobs"), store)
  else
    let matching := store.jobs.filter (fun j => j.state = st)
    if matching.length = 0 then
      (.ok { deletedJobsCount := 0, deletedJobIds := none
             message := clearNoneMessage label }, store)
    else
      let ids := matching.map (fun j => j.id)
      (.ok { deletedJobsCount := matching.length, deletedJobIds := some ids
             message := clearOkMessage label matching.length },
       { jobs := store.jobs.filter (fun j => j.state ≠ st)
         tasks := store.tasks.filter (fun t => !ids.contains t.job_id)
         deps := store.deps.filter (fun d => !ids.contains d.job_id)
         streams := store.streams })

/-- `DatabaseService.clearCompletedJobs()`. -/
def clearCompletedJobs (fail : Bool) (store : Store) : Except String ClearResult × Store :=
  clearJobsByState fail "completed" "done" store

/-- `DatabaseService.clearFailedJobs()`. -/
def clearFailedJobs (fail : Bool) (store : Store) : Except String ClearResult × Store :=
  clearJobsByState fail "failed" "failed" store

/-! ## AutoClearService (services/AutoClearService.js) -/

/-- The `config.autoClear` settings the service consumes. -/
structure AutoClearConfig where
  enabled : Bool
  interval : Nat
  clearCompleted : Bool
  clearFailed : Bool
deriving DecidableEq, Repr

/-- A pending host timer. -/
inductive TimerKind where
  | recurring (intervalMs : Nat)
  | oneShot (delayMs : Nat)
deriving DecidableEq, Repr

/-- A pending timer with its host-assigned id. -/
structure Timer where
  id : Nat
  kind : TimerKind
deriving DecidableEq, Repr

/-- The host timer table: the set of armed timers and the next fresh id. -/
structure TimerSys where
  timers : List Timer
  nextId : Nat
deriving DecidableEq, Repr

/-- Host `setInterval(f, ms)`: arm a recurring timer, return its id. -/
def setInterval (sys : TimerSys) (ms : Nat) : Nat × TimerSys :=
  (sys.nextId, { timers := sys.timers ++ [{ id := sys.nextId, kind := .recurring ms }]
                 nextId := sys.nextId + 1 })

/-- Host `setTimeout(f, ms)`: arm a one-shot timer, return its id. -/
def setTimeout (sys : TimerSys) (ms : Nat) : Nat × TimerSys :=
  (sys.nextId, { timers := sys.timers ++ [{ id := sys.nextId, kind := .oneShot ms }]
                 nextId := sys.nextId + 1 })

/-- Host `clearInterval(id)`: disarm the timer with that id. -/
def clearInterval (sys : TimerSys) (timerId : Nat) : TimerSys :=
  { sys with timers := sys.timers.filter (fun t => t.id ≠ timerId) }

/-- Milliseconds until a pending timer first fires. -/
def firstFire : TimerKind → Nat
  | .recurring ms => ms
  | .oneShot ms => ms

/-- The service's own mutable fields. -/
structure AutoClearService where
  intervalId : Option Nat
  isRunning : Bool
deriving DecidableEq, Repr

/-- `AutoClearService.start()`: no-op when disabled or already running;
otherwise arm the recurring sweep timer (storing its id), mark running,
and arm a 5000 ms one-shot timer for the initial sweep WITHOUT storing
its id anywhere. -/
def AutoClearService.start (cfg : AutoClearConfig) (svc : AutoClearService) (sys : TimerSys) :
    AutoClearService × TimerSys :=
  if !cfg.enabled then (svc, sys)
  else if svc.isRunning then (svc, sys)
  else
    let p1 := setInterval sys cfg.interval
    let p2 := setTimeout p1.2 5000
    ({ intervalId := some p1.1, isRunning := true }, p2.2)

/-- `AutoClearService.stop()`: when an interval id is stored, clear that
timer and reset the fields; otherwise do nothing.  The one-shot initial
timer's id was never stored, so nothing clears it. -/
def AutoClearService.stop (svc : AutoClearService) (sys : TimerSys) :
    AutoClearService × TimerSys :=
  match svc.intervalId with
  | some iid => ({ intervalId := none, isRunning := false }, clearInterval sys iid)
  | none => (svc, sys)

/-- The `results` object `performAutoClear` builds and returns: per-branch
success value or captured error message — and nothing else. -/
structure SweepResults where
  completed : Option ClearResult
  completedError : Option String
  failed : Option ClearResult
  failedError : Option String
deriving DecidableEq, Repr

/-- The empty `results = {}` object. -/
def SweepResults.empty : SweepResults :=
  { completed := none, completedError := none, failed := none, failedError := none }

/-- `AutoClearService.performAutoClear()`: run the clear-completed branch
when enabled, recording its result or its caught error message; then run
the clear-failed branch the same way on the resulting store.  Branch
errors are caught inside the branch, so the sweep returns normally. -/
def performAutoClear (cfg : AutoClearConfig) (failC failF : Bool) (store : Store) :
    SweepResults × Store :=
  let step1 : SweepResults × Store :=
    if cfg.clearCompleted then
      match clearCompletedJobs failC store with
      | (.ok r, s) => ({ SweepResults.empty with completed := some r }, s)
      | (.error m, s) => ({ SweepResults.empty with completedError := some m }, s)
    else (SweepResults.empty, store)
  if cfg.clearFailed then
    match clearFailedJobs failF step1.2 with
    | (.ok r, s) => ({ step1.1 with failed := some r }, s)
    | (.error m, s) => ({ step1.1 with failedError := some m }, s)
  else step1

/-- The per-branch deletion counts a sweep result carries. -/
def resultCounts (r : SweepResults) : List Nat :=
  (r.completed.map (fun c => c.deletedJobsCount)).toList ++
    (r.failed.map (fun c => c.deletedJobsCount)).toList

/-- The aggregate `totalCleared` the sweep computes (and logs): the sum of
the successful branches' counts. -/
def aggregateTotal (r : SweepResults) : Nat := (resultCounts r).sum

/-- Success projection of a branch outcome. -/
def exOk (e : Except String ClearResult) : Option ClearResult :=
  match e with
  | .ok r => some r
  | .error _ => none

/-- Error-message projection of a branch outcome. -/
def exErr (e : Except String ClearResult) : Option String :=
  match e with
  | .ok _ => none
  | .error m => some m

end Kumo


/-! ## Theorems: QueryBuilder claims -/

namespace QueryBuilder

/-- Helper: with select fields present, `build` succeeds and its
parameter list is the where-values, then the limit, then the offset. -/
theorem build_params_of_select (qb : QueryBuilder) (f : List String)
    (h : qb.selectFields = some f) :
    (qb.build).map Prod.snd = Except.ok
      (qb.params ++ (qb.limitValue.map Param.int).toList ++
        (qb.offsetValue.map Param.int).toList) := by
  cases hl : qb.limitValue <;> cases ho : qb.offsetValue <;>
    simp [QueryBuilder.build, h, hl, ho, Except.map]

/-- Helper: with select fields present, `build` returns a result. -/
theorem build_ok_of_select (qb : QueryBuilder) (f : List String)
    (h : qb.selectFields = some f) : ∃ r, qb.build = Except.ok r := by
  have hp := build_params_of_select qb f h
  cases hb : qb.build with
  | ok r => exact ⟨r, rfl⟩
  | error e =>
      rw [hb] at hp
      exact absurd hp (by simp [Except.map])

/-- Helper: `selectFields` after the `where` method is unchanged. -/
theorem selectFields_where (qb : QueryBuilder) (c : String) (v : Option Param) :
    (qb.«where» c v).selectFields = qb.selectFields := by
  cases v <;> rfl

end QueryBuilder

/-- Helper: no call other than `select` touches `selectFields`. -/
theorem selectFields_applyCall_ne (qb : QueryBuilder) (c : BuilderCall)
    (h : ∀ f, c ≠ .select f) : (applyCall qb c).selectFields = qb.selectFields := by
  cases c with
  | select f => exact absurd rfl (h f)
  | fromT t => rfl
  | join t c ty => rfl
  | whereVal c v => exact QueryBuilder.selectFields_where qb c v
  | groupBy f => rfl
  | orderBy f d => rfl
  | limit v => rfl
  | offset v => rfl

/-- Helper: a run of calls ends with no select fields exactly when it
started with none and contains no `select` call. -/
theorem selectFields_foldl (calls : List BuilderCall) (qb : QueryBuilder) :
    (calls.foldl applyCall qb).selectFields = none ↔
      qb.selectFields = none ∧ ∀ f, BuilderCall.select f ∉ calls := by
  induction calls generalizing qb with
  | nil => simp
  | cons c cs ih =>
      by_cases hc : ∃ f, c = BuilderCall.select f
      · obtain ⟨f, rfl⟩ := hc
        simp only [List.foldl_cons, ih]
        have h1 : (applyCall qb (BuilderCall.select f)).selectFields = some f := rfl
        rw [h1]
        constructor
        · rintro ⟨h, -⟩
          cases h
        · rintro ⟨-, hall⟩
          exact absurd (List.mem_cons_self _ _) (hall f)
      · push_neg at hc
        simp only [List.foldl_cons, ih, selectFields_applyCall_ne qb c hc, List.mem_cons]
        constructor
        · rintro ⟨h1, h2⟩
          refine ⟨h1, fun f hf => ?_⟩
          rcases hf with hf | hf
          · exact hc f hf.symm
          · exact h2 f hf
        · rintro ⟨h1, h2⟩
          exact ⟨h1, fun f hf => h2 f (Or.inr hf)⟩

/-- C8: the call sequence select(['id']).from('jobs').where('state = ?',
'done').limit(10).offset(5).build() yields exactly the statement
"SELECT id FROM jobs WHERE state = $1 LIMIT $2 OFFSET $3" — one WHERE,
one LIMIT, one OFFSET clause in that order with strictly increasing
markers $1 < $2 < $3 — and the parameter list ['done', 10, 5]; and in
general `build` deterministically emits the parameters in the order
where-values, then limit, then offset. -/
theorem C8_query_assembly :
    ((((((QueryBuilder.empty.select ["id"]).«from» "jobs").«where» "state = ?"
        (some (Param.str "done"))).limit 10).offset 5).build =
      Except.ok ("SELECT id FROM jobs WHERE state = $1 LIMIT $2 OFFSET $3",
        [Param.str "done", Param.int 10, Param.int 5])) ∧
    ∀ qb : QueryBuilder, ∀ f, qb.selectFields = some f →
      (qb.build).map Prod.snd = Except.ok
        (qb.params ++ (qb.limitValue.map Param.int).toList ++
          (qb.offsetValue.map Param.int).toList) :=
  ⟨rfl, fun qb f h => QueryBuilder.build_params_of_select qb f h⟩

/-- Witness for C8 at a concrete builder with select called. -/
theorem C8_query_assembly_witness :
    ((QueryBuilder.empty.select ["a"]).build).map Prod.snd = Except.ok
      ((QueryBuilder.empty.select ["a"]).params ++
        ((QueryBuilder.empty.select ["a"]).limitValue.map Param.int).toList ++
        ((QueryBuilder.empty.select ["a"]).offsetValue.map Param.int).toList) :=
  C8_query_assembly.2 (QueryBuilder.empty.select ["a"]) ["a"] rfl

/-- C9: on a fresh builder, a call sequence without any select makes
build() fail with the MissingClause error, and a call sequence containing
a select never fails for that (the only) reason. -/
theorem C9_select_required (calls : List BuilderCall) :
    ((∀ f, BuilderCall.select f ∉ calls) →
        (applyCalls calls).build = .error .missingClause) ∧
    ((∃ f, BuilderCall.select f ∈ calls) →
        ∃ r, (applyCalls calls).build = .ok r) := by
  constructor
  · intro h
    have hn : (applyCalls calls).selectFields = none :=
      (selectFields_foldl calls QueryBuilder.empty).mpr ⟨rfl, h⟩
    simp [QueryBuilder.build, hn]
  · rintro ⟨f, hf⟩
    have hne : (applyCalls calls).selectFields ≠ none := by
      rw [Ne, applyCalls, selectFields_foldl]
      rintro ⟨-, hall⟩
      exact hall f hf
    obtain ⟨fields, hfields⟩ := Option.ne_none_iff_exists'.mp hne
    exact QueryBuilder.build_ok_of_select _ fields hfields

/-- Witness for C9 at two concrete call sequences. -/
theorem C9_select_required_witness :
    ((applyCalls [BuilderCall.fromT "jobs"]).build = .error .missingClause) ∧
    ∃ r, (applyCalls [BuilderCall.select ["id"], BuilderCall.fromT "jobs"]).build = .ok r := by
  constructor
  · refine (C9_select_required [BuilderCall.fromT "jobs"]).1 ?_
    intro f hf
    simp at hf
  · refine (C9_select_required [BuilderCall.select ["id"], BuilderCall.fromT "jobs"]).2 ?_
    exact ⟨["id"], List.mem_cons_self _ _⟩

/-- Helper: when the scanned characters hold no placeholder before the
marked one, replacement rewrites exactly that occurrence and keeps the
tail — including any later placeholders — verbatim. -/
theorem replaceFirstQ_split (a b repl : List Char) (ha : '?' ∉ a) :
    QueryBuilder.replaceFirstQ (a ++ '?' :: b) repl = a ++ repl ++ b := by
  induction a with
  | nil => simp [QueryBuilder.replaceFirstQ]
  | cons c cs ih =>
      have hc : c ≠ '?' := fun h => ha (h ▸ List.mem_cons_self _ _)
      have hcs : '?' ∉ cs := fun h => ha (List.mem_cons_of_mem _ h)
      rw [List.cons_append]
      simp only [QueryBuilder.replaceFirstQ, if_neg hc]
      rw [List.cons_append, List.cons_append]
      exact congrArg (List.cons c) (ih hcs)

/-- Helper: `replaceQ` on a template split around its first placeholder. -/
theorem replaceQ_split (a b marker : String) (ha : '?' ∉ a.data) :
    QueryBuilder.replaceQ (a ++ "?" ++ b) marker = a ++ marker ++ b := by
  apply String.ext
  show QueryBuilder.replaceFirstQ ((a ++ "?" ++ b).data) marker.data = (a ++ marker ++ b).data
  have h1 : (a ++ "?" ++ b).data = a.data ++ '?' :: b.data := by
    simp [String.data_append]
  have h2 : (a ++ marker ++ b).data = a.data ++ marker.data ++ b.data := by
    simp [String.data_append]
  rw [h1, h2]
  exact replaceFirstQ_split a.data b.data marker.data ha

/-- C10: where(template, value) with a non-null value replaces exactly
the first placeholder of the template with the next positional marker,
leaves any later placeholder characters verbatim in the emitted text, and
appends the value once to the parameter list. -/
theorem C10_where_first_placeholder (qb : QueryBuilder) (a b : String) (v : Param)
    (ha : '?' ∉ a.data) :
    (qb.«where» (a ++ "?" ++ b) (some v)).whereConditions =
        qb.whereConditions ++
          [{ condition := a ++ ("$" ++ toString qb.paramIndex) ++ b, value := some v }] ∧
    (qb.«where» (a ++ "?" ++ b) (some v)).params = qb.params ++ [v] ∧
    (qb.«where» (a ++ "?" ++ b) (some v)).paramIndex = qb.paramIndex + 1 := by
  refine ⟨?_, rfl, rfl⟩
  simp only [QueryBuilder.«where», replaceQ_split a b _ ha]

/-- Witness for C10: a template with a second placeholder left verbatim. -/
theorem C10_where_first_placeholder_witness :
    (QueryBuilder.empty.«where» ("state = " ++ "?" ++ " AND x = ?")
        (some (Param.str "done"))).whereConditions =
      QueryBuilder.empty.whereConditions ++
        [{ condition := "state = " ++ ("$" ++ toString QueryBuilder.empty.paramIndex) ++
            " AND x = ?", value := some (Param.str "done") }] ∧
    (QueryBuilder.empty.«where» ("state = " ++ "?" ++ " AND x = ?")
        (some (Param.str "done"))).params = QueryBuilder.empty.params ++ [Param.str "done"] ∧
    (QueryBuilder.empty.«where» ("state = " ++ "?" ++ " AND x = ?")
        (some (Param.str "done"))).paramIndex = QueryBuilder.empty.paramIndex + 1 :=
  C10_where_first_placeholder QueryBuilder.empty "state = " " AND x = ?"
    (Param.str "done") (by decide)

/-! ## Theorems: pagination (Validator + listings) -/

/-- Helper: the exact failure condition of `validatePagination`. -/
theorem validatePagination_error_iff (l o : JsInput) :
    (∃ e, validatePagination l o = .error e) ↔
      (100 < parseIntOr l 50 ∨ parseIntOr l 50 < 1 ∨ parseIntOr o 0 < 0) := by
  simp only [validatePagination]
  split_ifs with h1 h2 h3
  · simp only [gt_iff_lt] at h1
    simp [h1]
  · simp [h2]
  · simp [h3]
  · simp only [gt_iff_lt, not_lt] at h1 h2 h3
    constructor
    · rintro ⟨e, he⟩
      cases he
    · rintro (h | h | h) <;> omega
  
/-- Helper: a successful validation returns exactly the defaulted parses. -/
theorem validatePagination_ok_vals (l o : JsInput) (p : Int × Int)
    (h : validatePagination l o = .ok p) :
    p.1 = parseIntOr l 50 ∧ p.2 = parseIntOr o 0 := by
  simp only [validatePagination] at h
  split_ifs at h
  cases h
  exact ⟨rfl, rfl⟩

/-- Helper: a successful jobs listing has at most the validated limit of
rows. -/
theorem getJobsWithStats_length_le (store : Kumo.Store) (sp : SearchParams)
    (l o : JsInput) (res : Kumo.JobsResult)
    (h : Kumo.getJobsWithStats store sp l o = .ok res) :
    res.jobs.length ≤ (parseIntOr l 50).toNat := by
  unfold Kumo.getJobsWithStats at h
  cases hv : validatePagination l o with
  | error e => rw [hv] at h; cases h
  | ok p =>
      obtain ⟨hp1, -⟩ := validatePagination_ok_vals l o p hv
      rw [hv] at h
      cases h
      simp [hp1]

/-- Helper: a successful streams listing has at most the validated limit
of rows. -/
theorem getStreams_length_le (store : Kumo.Store) (l o : JsInput)
    (res : Kumo.StreamsResult) (h : Kumo.getStreams store l o = .ok res) :
    res.streams.length ≤ (parseIntOr l 50).toNat := by
  unfold Kumo.getStreams at h
  cases hv : validatePagination l o with
  | error e => rw [hv] at h; cases h
  | ok p =>
      obtain ⟨hp1, -⟩ := validatePagination_ok_vals l o p hv
      rw [hv] at h
      cases h
      simp [hp1]

/-- Helper: the jobs listing propagates exactly the pagination errors. -/
theorem getJobsWithStats_error_iff (store : Kumo.Store) (sp : SearchParams)
    (l o : JsInput) (e : PagError) :
    Kumo.getJobsWithStats store sp l o = .error e ↔ validatePagination l o = .error e := by
  unfold Kumo.getJobsWithStats
  cases hv : validatePagination l o with
  | error e' => simp
  | ok p => simp

/-- Helper: the streams listing propagates exactly the pagination errors. -/
theorem getStreams_error_iff (store : Kumo.Store) (l o : JsInput) (e : PagError) :
    Kumo.getStreams store l o = .error e ↔ validatePagination l o = .error e := by
  unfold Kumo.getStreams
  cases hv : validatePagination l o with
  | error e' => simp
  | ok p => simp

/-- C4: pagination validation fails exactly when the defaulted parsed
limit is above 100 or below 1 or the defaulted parsed offset is negative;
absent inputs default to 50 and 0; both listing operations apply this
same validation (they error exactly when it does) and return at most the
validated limit of rows. -/
theorem C4_pagination_contract :
    (∀ l o : JsInput, (∃ e, validatePagination l o = .error e) ↔
        (100 < parseIntOr l 50 ∨ parseIntOr l 50 < 1 ∨ parseIntOr o 0 < 0)) ∧
    validatePagination .missing .missing = .ok (50, 0) ∧
    (∀ store sp l o res, Kumo.getJobsWithStats store sp l o = .ok res →
        res.jobs.length ≤ (parseIntOr l 50).toNat) ∧
    (∀ store sp l o e, Kumo.getJobsWithStats store sp l o = .error e ↔
        validatePagination l o = .error e) ∧
    (∀ store l o res, Kumo.getStreams store l o = .ok res →
        res.streams.length ≤ (parseIntOr l 50).toNat) ∧
    (∀ store l o e, Kumo.getStreams store l o = .error e ↔
        validatePagination l o = .error e) :=
  ⟨validatePagination_error_iff, rfl,
    fun store sp l o res h => getJobsWithStats_length_le store sp l o res h,
    fun store sp l o e => getJobsWithStats_error_iff store sp l o e,
    fun store l o res h => getStreams_length_le store l o res h,
    fun store l o e => getStreams_error_iff store l o e⟩

/-- Witness for C4: an out-of-range limit is rejected, and a concrete
listing on the empty store stays within the default limit. -/
theorem C4_pagination_contract_witness :
    (∃ e, validatePagination (.num 200) (.num 0) = .error e) ∧
    (Kumo.JobsResult.jobs
        ⟨[], ⟨50, 0, 0⟩, ⟨none, none, none, none⟩⟩).length ≤
      (parseIntOr JsInput.missing 50).toNat :=
  ⟨(C4_pagination_contract.1 (.num 200) (.num 0)).mpr (Or.inl (by decide)),
    C4_pagination_contract.2.2.1 ⟨[], [], [], []⟩ ⟨none, none, none, none⟩
      .missing .missing _ rfl⟩

/-! ## Theorems: deleteJob (C1, C6) -/

/-- C6: deleteJob on a job id matching no existing row fails with the
NotFound error and performs zero mutations — the observable store after
the failed call equals the store before it. -/
theorem C6_deleteJob_notFound (fs : Kumo.FailSpec) (store : Kumo.Store) (jobId : Nat)
    (h : store.jobs.filter (fun j => j.id = jobId) = []) :
    (Kumo.deleteJob fs store jobId).result = .error (.notFound jobId) ∧
    (Kumo.deleteJob fs store jobId).store = store := by
  constructor <;> simp [Kumo.deleteJob, h]

/-- Witness for C6 on the empty store. -/
theorem C6_deleteJob_notFound_witness :
    (Kumo.deleteJob ⟨false, false, false⟩ ⟨[], [], [], []⟩ 7).result =
        .error (.notFound 7) ∧
    (Kumo.deleteJob ⟨false, false, false⟩ ⟨[], [], [], []⟩ 7).store = ⟨[], [], [], []⟩ :=
  C6_deleteJob_notFound ⟨false, false, false⟩ ⟨[], [], [], []⟩ 7 rfl

/-- C1 counterexample: the job exists, the dependency-delete step fails,
and the later steps succeed.  The failure is swallowed, the transaction
still commits the task and job deletes, and an orphaned dependency row —
an edge whose job row no longer exists — is observable afterwards.  This
contradicts the claim that any step failure after the existence check
rolls back every delete performed in the transaction so that no orphaned
dependency row is ever observable. -/
theorem C1_counterexample :
    (Kumo.deleteJob ⟨true, false, false⟩
        ⟨[⟨1, "running", none, "u", false⟩], [⟨"t1", 1, "pending", 0⟩],
          [⟨1, "a", "b"⟩], []⟩ 1).result = .ok 1 ∧
    (Kumo.deleteJob ⟨true, false, false⟩
        ⟨[⟨1, "running", none, "u", false⟩], [⟨"t1", 1, "pending", 0⟩],
          [⟨1, "a", "b"⟩], []⟩ 1).store = ⟨[], [], [⟨1, "a", "b"⟩], []⟩ :=
  ⟨rfl, rfl⟩

/-- C1 (amended): for an existing job, deleteJob works inside one
begin/commit-or-rollback bracket and attempts the deletes in the order
task_deps, tasks, jobs; a failure of the tasks-delete or jobs-delete step
rolls everything back (the original store stays observable and the error
surfaces), but a failure of the dependency-delete step alone is swallowed
and the transaction continues to commit, so the committed store then
still holds the dependency rows (orphans — see the counterexample). -/
theorem C1_deleteJob_tx (fs : Kumo.FailSpec) (store : Kumo.Store) (jobId : Nat)
    (hex : store.jobs.filter (fun j => j.id = jobId) ≠ []) :
    (fs.failTasksDelete = false → fs.failJobsDelete = false →
      (Kumo.deleteJob fs store jobId).result = .ok jobId ∧
      (Kumo.deleteJob fs store jobId).trace =
        [.beginTx, .checkJob, .delDeps, .delTasks, .delJob, .commitTx] ∧
      (Kumo.deleteJob fs store jobId).store.jobs =
        store.jobs.filter (fun j => j.id ≠ jobId) ∧
      (Kumo.deleteJob fs store jobId).store.tasks =
        store.tasks.filter (fun t => t.job_id ≠ jobId) ∧
      (Kumo.deleteJob fs store jobId).store.deps =
        (if fs.failDepsDelete then store.deps
         else store.deps.filter (fun d => d.job_id ≠ jobId))) ∧
    ((fs.failTasksDelete = true ∨ fs.failJobsDelete = true) →
      (Kumo.deleteJob fs store jobId).result = .error .storeError ∧
      (Kumo.deleteJob fs store jobId).store = store ∧
      (Kumo.deleteJob fs store jobId).trace.getLast? = some .rollbackTx) := by
  have hne : (store.jobs.filter (fun j => j.id = jobId)).isEmpty = false := by
    simpa [List.isEmpty_iff] using hex
  constructor
  · intro h1 h2
    cases hd : fs.failDepsDelete <;>
      simp [Kumo.deleteJob, hne, h1, h2, hd]
  · rintro (h | h)
    · simp [Kumo.deleteJob, hne, h]
    · cases h2 : fs.failTasksDelete <;>
        simp [Kumo.deleteJob, hne, h, h2]

/-- Witness for C1 (amended) on a one-job store with no step failing. -/
theorem C1_deleteJob_tx_witness :
    (Kumo.deleteJob ⟨false, false, false⟩
        ⟨[⟨1, "running", none, "u", false⟩], [⟨"t1", 1, "pending", 0⟩],
          [⟨1, "a", "b"⟩], []⟩ 1).result = .ok 1 ∧
    (Kumo.deleteJob ⟨false, false, false⟩
        ⟨[⟨1, "running", none, "u", false⟩], [⟨"t1", 1, "pending", 0⟩],
          [⟨1, "a", "b"⟩], []⟩ 1).trace =
      [.beginTx, .checkJob, .delDeps, .delTasks, .delJob, .commitTx] ∧
    (Kumo.deleteJob ⟨false, false, false⟩
        ⟨[⟨1, "running", none, "u", false⟩], [⟨"t1", 1, "pending", 0⟩],
          [⟨1, "a", "b"⟩], []⟩ 1).store.jobs =
      ([⟨1, "running", none, "u", false⟩] : List Kumo.Job).filter (fun j => j.id ≠ 1) ∧
    (Kumo.deleteJob ⟨false, false, false⟩
        ⟨[⟨1, "running", none, "u", false⟩], [⟨"t1", 1, "pending", 0⟩],
          [⟨1, "a", "b"⟩], []⟩ 1).store.tasks =
      ([⟨"t1", 1, "pending", 0⟩] : List Kumo.Task).filter (fun t => t.job_id ≠ 1) ∧
    (Kumo.deleteJob ⟨false, false, false⟩
        ⟨[⟨1, "running", none, "u", false⟩], [⟨"t1", 1, "pending", 0⟩],
          [⟨1, "a", "b"⟩], []⟩ 1).store.deps =
      (if (⟨false, false, false⟩ : Kumo.FailSpec).failDepsDelete then
          ([⟨1, "a", "b"⟩] : List Kumo.TaskDep)
        else ([⟨1, "a", "b"⟩] : List Kumo.TaskDep).filter (fun d => d.job_id ≠ 1)) :=
  (C1_deleteJob_tx ⟨false, false, false⟩
    ⟨[⟨1, "running", none, "u", false⟩], [⟨"t1", 1, "pending", 0⟩],
      [⟨1, "a", "b"⟩], []⟩ 1 (by decide)).1 rfl rfl


/-! ## Theorems: bulk clear (C5) -/

/-- Helper: removing every job in a state leaves none in that state. -/
theorem filter_state_after_remove (st : String) (l : List Kumo.Job) :
    (l.filter (fun j => j.state ≠ st)).filter (fun j => j.state = st) = [] := by
  induction l with
  | nil => rfl
  | cons j js ih =>
      by_cases h : j.state = st <;> simp [h, ih]

/-- Helper: zero-match branch of the completed clear. -/
theorem clearCompleted_zero (store : Kumo.Store)
    (h : store.jobs.filter (fun j => j.state = "done") = []) :
    (Kumo.clearCompletedJobs false store).1 =
        .ok ⟨0, none, Kumo.clearNoneMessage "completed"⟩ ∧
    (Kumo.clearCompletedJobs false store).2 = store := by
  constructor <;> simp [Kumo.clearCompletedJobs, Kumo.clearJobsByState, h]

/-- Helper: nonzero branch of the completed clear — the returned report. -/
theorem clearCompleted_report (store : Kumo.Store)
    (h : store.jobs.filter (fun j => j.state = "done") ≠ []) :
    (Kumo.clearCompletedJobs false store).1 =
      .ok ⟨(store.jobs.filter (fun j => j.state = "done")).length,
        some ((store.jobs.filter (fun j => j.state = "done")).map (fun j => j.id)),
        Kumo.clearOkMessage "completed"
          (store.jobs.filter (fun j => j.state = "done")).length⟩ := by
  have hlen : (store.jobs.filter (fun j => j.state = "done")).length ≠ 0 := by
    simpa [List.length_eq_zero] using h
  simp [Kumo.clearCompletedJobs, Kumo.clearJobsByState, hlen]

/-- Helper: nonzero branch of the completed clear — the committed jobs. -/
theorem clearCompleted_post_jobs (store : Kumo.Store)
    (h : store.jobs.filter (fun j => j.state = "done") ≠ []) :
    (Kumo.clearCompletedJobs false store).2.jobs =
      store.jobs.filter (fun j => j.state ≠ "done") := by
  have hlen : (store.jobs.filter (fun j => j.state = "done")).length ≠ 0 := by
    simpa [List.length_eq_zero] using h
  simp [Kumo.clearCompletedJobs, Kumo.clearJobsByState, hlen]

/-- C5: clearCompletedJobs with zero done jobs commits and returns the
zero-count result without error, leaving the store unchanged; with N ≥ 1
done jobs it returns count N together with exactly those jobs'
identifiers, afterwards no done job remains, and an immediately
subsequent call returns the zero-count result. -/
theorem C5_clearByState_done (store : Kumo.Store) :
    ((store.jobs.filter (fun j => j.state = "done")) = [] →
      (Kumo.clearCompletedJobs false store).1 =
          .ok ⟨0, none, Kumo.clearNoneMessage "completed"⟩ ∧
      (Kumo.clearCompletedJobs false store).2 = store) ∧
    ((store.jobs.filter (fun j => j.state = "done")) ≠ [] →
      (Kumo.clearCompletedJobs false store).1 =
          .ok ⟨(store.jobs.filter (fun j => j.state = "done")).length,
            some ((store.jobs.filter (fun j => j.state = "done")).map (fun j => j.id)),
            Kumo.clearOkMessage "completed"
              (store.jobs.filter (fun j => j.state = "done")).length⟩ ∧
      ((Kumo.clearCompletedJobs false store).2).jobs.filter
          (fun j => j.state = "done") = [] ∧
      (Kumo.clearCompletedJobs false (Kumo.clearCompletedJobs false store).2).1 =
          .ok ⟨0, none, Kumo.clearNoneMessage "completed"⟩) := by
  refine ⟨clearCompleted_zero store, fun h => ⟨clearCompleted_report store h, ?_, ?_⟩⟩
  · rw [clearCompleted_post_jobs store h]
    exact filter_state_after_remove "done" store.jobs
  · refine (clearCompleted_zero _ ?_).1
    rw [clearCompleted_post_jobs store h]
    exact filter_state_after_remove "done" store.jobs

/-- Witness for C5 on a zero-match store and a two-match store. -/
theorem C5_clearByState_done_witness :
    ((Kumo.clearCompletedJobs false ⟨[⟨3, "running", none, "u", false⟩], [], [], []⟩).1 =
        .ok ⟨0, none, Kumo.clearNoneMessage "completed"⟩) ∧
    (Kumo.clearCompletedJobs false
        ⟨[⟨1, "done", none, "u", false⟩, ⟨2, "done", none, "v", false⟩], [], [], []⟩).1 =
      .ok ⟨(([⟨1, "done", none, "u", false⟩, ⟨2, "done", none, "v", false⟩] :
            List Kumo.Job).filter (fun j => j.state = "done")).length,
        some ((([⟨1, "done", none, "u", false⟩, ⟨2, "done", none, "v", false⟩] :
            List Kumo.Job).filter (fun j => j.state = "done")).map (fun j => j.id)),
        Kumo.clearOkMessage "completed"
          (([⟨1, "done", none, "u", false⟩, ⟨2, "done", none, "v", false⟩] :
            List Kumo.Job).filter (fun j => j.state = "done")).length⟩ :=
  ⟨((C5_clearByState_done ⟨[⟨3, "running", none, "u", false⟩], [], [], []⟩).1 rfl).1,
    ((C5_clearByState_done
      ⟨[⟨1, "done", none, "u", false⟩, ⟨2, "done", none, "v", false⟩], [], [], []⟩).2
      (by decide)).1⟩

/-! ## Theorems: getJobDependencies (C3) -/

/-- C3 counterexample: when the dependency table is unavailable in the
deployment, getJobDependencies surfaces the store error to the caller —
it does not return an empty list, contradicting the claim that capability
absence is swallowed and never surfaced as a failure. -/
theorem C3_counterexample :
    Kumo.getJobDependencies false ⟨[], [], [], []⟩ 1 =
      .error "relation task_deps does not exist" := rfl

/-- C3 (amended): with the dependency table available, getJobDependencies
returns exactly the job's precedence edges with their count — the empty
list (not an error) when none exist; but when the table is unavailable
the store error propagates to the caller instead of an empty list. -/
theorem C3_getJobDependencies (store : Kumo.Store) (jobId : Nat) :
    (Kumo.getJobDependencies true store jobId = .ok
        ⟨(store.deps.filter (fun d => d.job_id = jobId)).map
            (fun d => (d.pre_task_id, d.post_task_id)),
          ((store.deps.filter (fun d => d.job_id = jobId)).map
            (fun d => (d.pre_task_id, d.post_task_id))).length⟩) ∧
    (store.deps.filter (fun d => d.job_id = jobId) = [] →
      Kumo.getJobDependencies true store jobId = .ok ⟨[], 0⟩) ∧
    ∃ e, Kumo.getJobDependencies false store jobId = .error e := by
  refine ⟨rfl, fun h => ?_, ⟨_, rfl⟩⟩
  simp [Kumo.getJobDependencies, h]

/-- Witness for C3 (amended) on a store with no dependency rows. -/
theorem C3_getJobDependencies_witness :
    Kumo.getJobDependencies true ⟨[], [], [], []⟩ 1 = .ok ⟨[], 0⟩ :=
  (C3_getJobDependencies ⟨[], [], [], []⟩ 1).2.1 rfl

/-! ## Theorems: the sweep (C7) -/

/-- C7 counterexample: a sweep whose two branches delete one job each.
The full returned result is shown: it carries the two per-branch counts
(both 1) and nothing equal to the aggregate total deleted (2) — the
aggregate is computed for logging only and is not part of the returned
structured result, contradicting that part of the claim. -/
theorem C7_counterexample :
    (Kumo.performAutoClear ⟨true, 600000, true, true⟩ false false
        ⟨[⟨1, "done", none, "u", false⟩, ⟨2, "failed", none, "u", false⟩],
          [], [], []⟩).1 =
      ⟨some ⟨1, some [1], Kumo.clearOkMessage "completed" 1⟩, none,
        some ⟨1, some [2], Kumo.clearOkMessage "failed" 1⟩, none⟩ ∧
    Kumo.aggregateTotal
        (Kumo.performAutoClear ⟨true, 600000, true, true⟩ false false
          ⟨[⟨1, "done", none, "u", false⟩, ⟨2, "failed", none, "u", false⟩],
            [], [], []⟩).1 = 2 ∧
    2 ∉ Kumo.resultCounts
        (Kumo.performAutoClear ⟨true, 600000, true, true⟩ false false
          ⟨[⟨1, "done", none, "u", false⟩, ⟨2, "failed", none, "u", false⟩],
            [], [], []⟩).1 := by
  refine ⟨rfl, rfl, ?_⟩
  have hr : Kumo.resultCounts
      (Kumo.performAutoClear ⟨true, 600000, true, true⟩ false false
        ⟨[⟨1, "done", none, "u", false⟩, ⟨2, "failed", none, "u", false⟩],
          [], [], []⟩).1 = [1, 1] := rfl
  rw [hr]
  decide

/-- C7 (amended): with both branches enabled the sweep runs the
clear-completed branch and then the clear-failed branch sequentially (the
failed branch operates on the completed branch's post-state), records
each branch's success result or its caught error message independently in
that branch's slot, and returns normally whether or not either branch
failed; the aggregate total deleted is computed for logging only and is
not part of the returned result. -/
theorem C7_sweep_isolation (cfg : Kumo.AutoClearConfig) (failC failF : Bool)
    (store : Kumo.Store) (h1 : cfg.clearCompleted = true) (h2 : cfg.clearFailed = true) :
    (Kumo.performAutoClear cfg failC failF store).1 =
      ⟨Kumo.exOk (Kumo.clearCompletedJobs failC store).1,
        Kumo.exErr (Kumo.clearCompletedJobs failC store).1,
        Kumo.exOk (Kumo.clearFailedJobs failF (Kumo.clearCompletedJobs failC store).2).1,
        Kumo.exErr (Kumo.clearFailedJobs failF (Kumo.clearCompletedJobs failC store).2).1⟩ ∧
    (Kumo.performAutoClear cfg failC failF store).2 =
      (Kumo.clearFailedJobs failF (Kumo.clearCompletedJobs failC store).2).2 := by
  cases hc : Kumo.clearCompletedJobs failC store with
  | mk c1 s1 =>
      cases hf : Kumo.clearFailedJobs failF s1 with
      | mk f1 s2 =>
          cases c1 <;> cases f1 <;>
            simp [Kumo.performAutoClear, h1, h2, hc, hf, Kumo.exOk, Kumo.exErr,
              Kumo.SweepResults.empty]

/-- Witness for C7 (amended): a failing completed branch next to a
succeeding failed branch on the empty store. -/
theorem C7_sweep_isolation_witness :
    (Kumo.performAutoClear ⟨true, 600000, true, true⟩ true false ⟨[], [], [], []⟩).1 =
      ⟨Kumo.exOk (Kumo.clearCompletedJobs true ⟨[], [], [], []⟩).1,
        Kumo.exErr (Kumo.clearCompletedJobs true ⟨[], [], [], []⟩).1,
        Kumo.exOk (Kumo.clearFailedJobs false
          (Kumo.clearCompletedJobs true ⟨[], [], [], []⟩).2).1,
        Kumo.exErr (Kumo.clearFailedJobs false
          (Kumo.clearCompletedJobs true ⟨[], [], [], []⟩).2).1⟩ ∧
    (Kumo.performAutoClear ⟨true, 600000, true, true⟩ true false ⟨[], [], [], []⟩).2 =
      (Kumo.clearFailedJobs false (Kumo.clearCompletedJobs true ⟨[], [], [], []⟩).2).2 :=
  C7_sweep_isolation ⟨true, 600000, true, true⟩ true false ⟨[], [], [], []⟩ rfl rfl

/-! ## Theorems: scheduler lifecycle (C2) -/

/-- C2 counterexample: start() then stop() on an enabled configuration.
The recurring timer is cancelled, but the 5000 ms one-shot initial-sweep
timer — whose id start() never stored — is still armed afterwards, so a
sweep can still fire after stop(); stop() does not cancel every timer
start() armed. -/
theorem C2_counterexample :
    ((Kumo.AutoClearService.stop
        (Kumo.AutoClearService.start ⟨true, 600000, true, true⟩ ⟨none, false⟩ ⟨[], 0⟩).1
        (Kumo.AutoClearService.start ⟨true, 600000, true, true⟩
          ⟨none, false⟩ ⟨[], 0⟩).2).2).timers =
      [⟨1, .oneShot 5000⟩] := rfl

/-- C2 (amended): on an enabled configuration, start() arms the recurring
interval timer and a 5000 ms one-shot initial-sweep timer, and the
initial sweep fires earlier than the first recurring sweep whenever the
configured interval exceeds 5000 ms; stop() then cancels the recurring
timer — no recurring timer stays armed — and a second stop() is a no-op,
but the one-shot initial-sweep timer remains armed and can still fire
once after stop(). -/
theorem C2_stop_cancels_recurring (cfg : Kumo.AutoClearConfig)
    (h : cfg.enabled = true) (hi : 5000 < cfg.interval) :
    (Kumo.AutoClearService.start cfg ⟨none, false⟩ ⟨[], 0⟩).2.timers =
      [⟨0, .recurring cfg.interval⟩, ⟨1, .oneShot 5000⟩] ∧
    Kumo.firstFire (.oneShot 5000) < Kumo.firstFire (.recurring cfg.interval) ∧
    ((Kumo.AutoClearService.stop
        (Kumo.AutoClearService.start cfg ⟨none, false⟩ ⟨[], 0⟩).1
        (Kumo.AutoClearService.start cfg ⟨none, false⟩ ⟨[], 0⟩).2).2).timers =
      [⟨1, .oneShot 5000⟩] ∧
    (∀ t ∈ ((Kumo.AutoClearService.stop
        (Kumo.AutoClearService.start cfg ⟨none, false⟩ ⟨[], 0⟩).1
        (Kumo.AutoClearService.start cfg ⟨none, false⟩ ⟨[], 0⟩).2).2).timers,
      ∀ ms, t.kind ≠ Kumo.TimerKind.recurring ms) ∧
    Kumo.AutoClearService.stop
        (Kumo.AutoClearService.stop
          (Kumo.AutoClearService.start cfg ⟨none, false⟩ ⟨[], 0⟩).1
          (Kumo.AutoClearService.start cfg ⟨none, false⟩ ⟨[], 0⟩).2).1
        (Kumo.AutoClearService.stop
          (Kumo.AutoClearService.start cfg ⟨none, false⟩ ⟨[], 0⟩).1
          (Kumo.AutoClearService.start cfg ⟨none, false⟩ ⟨[], 0⟩).2).2 =
      Kumo.AutoClearService.stop
        (Kumo.AutoClearService.start cfg ⟨none, false⟩ ⟨[], 0⟩).1
        (Kumo.AutoClearService.start cfg ⟨none, false⟩ ⟨[], 0⟩).2 := by
  have hstart : Kumo.AutoClearService.start cfg ⟨none, false⟩ ⟨[], 0⟩ =
      (⟨some 0, true⟩, ⟨[⟨0, .recurring cfg.interval⟩, ⟨1, .oneShot 5000⟩], 2⟩) := by
    simp [Kumo.AutoClearService.start, Kumo.setInterval, Kumo.setTimeout, h]
  rw [hstart]
  have hstop : Kumo.AutoClearService.stop (⟨some 0, true⟩ : Kumo.AutoClearService)
      ⟨[⟨0, .recurring cfg.interval⟩, ⟨1, .oneShot 5000⟩], 2⟩ =
      (⟨none, false⟩, ⟨[⟨1, .oneShot 5000⟩], 2⟩) := by
    simp [Kumo.AutoClearService.stop, Kumo.clearInterval]
  rw [hstop]
  refine ⟨rfl, by simpa [Kumo.firstFire] using hi, rfl, ?_, rfl⟩
  intro t ht ms
  simp only [List.mem_singleton] at ht
  subst ht
  simp

/-- Witness for C2 (amended) at a concrete enabled configuration. -/
theorem C2_stop_cancels_recurring_witness :
    (Kumo.AutoClearService.start ⟨true, 600000, true, true⟩
        ⟨none, false⟩ ⟨[], 0⟩).2.timers =
      [⟨0, .recurring 600000⟩, ⟨1, .oneShot 5000⟩] ∧
    Kumo.firstFire (.oneShot 5000) < Kumo.firstFire (.recurring 600000) ∧
    ((Kumo.AutoClearService.stop
        (Kumo.AutoClearService.start ⟨true, 600000, true, true⟩ ⟨none, false⟩ ⟨[], 0⟩).1
        (Kumo.AutoClearService.start ⟨true, 600000, true, true⟩
          ⟨none, false⟩ ⟨[], 0⟩).2).2).timers = [⟨1, .oneShot 5000⟩] :=
  have h := C2_stop_cancels_recurring ⟨true, 600000, true, true⟩ rfl (by decide)
  ⟨h.1, h.2.1, h.2.2.1⟩

/-- A timer left armed fires: the remaining one-shot timer after stop()
still has a firing delay, witnessing that a sweep can still occur. -/
theorem C2_leftover_oneShot_fires :
    Kumo.firstFire (Kumo.TimerKind.oneShot 5000) = 5000 := rfl
